import Mathlib

/-!
Verification of the annoliate router (src/annoliate/router.py) against its
natural-language specification.

The embedding models Python strings as `List Char`, Python exceptions as an
explicit `PyErr` error type threaded through `Except` / result pairs, and the
router's two lookup structures (a dict keyed by route objects and a nested-dict
trie) as an association list and an inductive trie.

Two modelling points that matter for faithfulness:

* `_Route.__init__` (router.py lines 126-129) assigns only `self._hash`; the
  `segments` slot declared in `__slots__` is never assigned anywhere in the
  source, so every attribute read of `.segments` raises `AttributeError`.  The
  embedding keeps the slot as an `Option` that is `none` on every constructed
  object, and attribute reads go through `getSegmentsAttr`.
* CPython dict lookups compare keys by hash, then identity, then `__eq__`.
  `_Route.__eq__` returns `NotImplemented` (modelled as `none`) whenever either
  side's `segments` slot is unset, in which case CPython falls back to identity
  comparison.  Every containment test in the source compares a freshly
  constructed route object against previously stored ones (objects created by
  `_Route.make` / `_StaticRoute.parse` never escape to be re-passed), so the
  identity fallback is always `False`; the embedding therefore resolves the
  double-`NotImplemented` case to `false`.
-/

set_option autoImplicit false

namespace Annoliate

/-- Python-level failure outcomes relevant to the router. -/
inductive PyErr where
  /-- ValueError raised by one of the explicit template checks in `_Route.make`. -/
  | invalidTemplate (msg : String)
  /-- ValueError 'Route already found in router!' raised by `Router.register`. -/
  | duplicateRoute
  /-- annoliate's MissingRoute exception raised during dispatch. -/
  | missingRoute
  /-- ValueError raised by the single-element unpacking `stdlib_tuple, = stdlib_tuples`. -/
  | unpackError
  /-- AttributeError from reading a never-assigned `__slots__` attribute. -/
  | attributeError
  /-- TypeError, e.g. unpacking a non-iterable. -/
  | typeError
  /-- IndexError, e.g. indexing into an empty string. -/
  | indexError
  /-- ValueError raised inside `string.Formatter().parse`. -/
  | formatError
deriving DecidableEq, Repr

/-- Result tuple yielded by `string.Formatter().parse`:
(literal_text, field_name, format_spec, conversion).  `field_name` is `none`
for a purely literal chunk, in which case CPython also yields `None` for the
format spec; when a field is present the spec defaults to the empty string. -/
structure FTuple where
  literal : List Char
  fieldName : Option (List Char)
  formatSpec : Option (List Char)
  conversion : Option Char
deriving DecidableEq, Repr

/-- Scanner state for the model of CPython's formatter parser. -/
inductive FMode where
  /-- Scanning literal text, with the reversed accumulator. -/
  | lit (acc : List Char)
  /-- Just consumed an opening brace while scanning literal text. -/
  | sawL (acc : List Char)
  /-- Just consumed a closing brace while scanning literal text. -/
  | sawR (acc : List Char)
  /-- Scanning a field name after an opening brace. -/
  | field (litText : List Char) (nameAcc : List Char)
  /-- Scanning an index bracket inside a field name. -/
  | brack (litText : List Char) (nameAcc : List Char)
  /-- Just consumed the conversion marker. -/
  | conv (litText : List Char) (name : List Char)
  /-- Consumed the conversion character, expecting a closing brace or a colon. -/
  | conv2 (litText : List Char) (name : List Char) (cv : Char)
  /-- Scanning a format spec with a brace-nesting depth. -/
  | spec (litText : List Char) (name : List Char) (cv : Option Char)
      (depth : Nat) (acc : List Char)
deriving DecidableEq, Repr

/-- Model of the iterator behind `string.Formatter().parse`
(CPython `_string.formatter_parser`), as a one-character-at-a-time scanner. -/
def fmtRun : List Char → FMode → Except PyErr (List FTuple)
  | [], .lit acc =>
      if acc.isEmpty then .ok [] else .ok [⟨acc.reverse, none, none, none⟩]
  | [], .sawL _ => .error .formatError
  | [], .sawR _ => .error .formatError
  | [], .field _ _ => .error .formatError
  | [], .brack _ _ => .error .formatError
  | [], .conv _ _ => .error .formatError
  | [], .conv2 _ _ _ => .error .formatError
  | [], .spec _ _ _ _ _ => .error .formatError
  | c :: rest, .lit acc =>
      if c = '\x7b' then fmtRun rest (.sawL acc)
      else if c = '\x7d' then fmtRun rest (.sawR acc)
      else fmtRun rest (.lit (c :: acc))
  | c :: rest, .sawL acc =>
      if c = '\x7b' then
        match fmtRun rest (.lit []) with
        | .ok ts => .ok (⟨(c :: acc).reverse, none, none, none⟩ :: ts)
        | .error e => .error e
      else if c = '\x7d' then
        match fmtRun rest (.lit []) with
        | .ok ts => .ok (⟨acc.reverse, some [], some [], none⟩ :: ts)
        | .error e => .error e
      else if c = ':' then fmtRun rest (.spec acc.reverse [] none 1 [])
      else if c = '!' then fmtRun rest (.conv acc.reverse [])
      else if c = '[' then fmtRun rest (.brack acc.reverse [c])
      else fmtRun rest (.field acc.reverse [c])
  | c :: rest, .sawR acc =>
      if c = '\x7d' then
        match fmtRun rest (.lit []) with
        | .ok ts => .ok (⟨(c :: acc).reverse, none, none, none⟩ :: ts)
        | .error e => .error e
      else .error .formatError
  | c :: rest, .field litText nameAcc =>
      if c = '\x7d' then
        match fmtRun rest (.lit []) with
        | .ok ts => .ok (⟨litText, some nameAcc.reverse, some [], none⟩ :: ts)
        | .error e => .error e
      else if c = ':' then fmtRun rest (.spec litText nameAcc.reverse none 1 [])
      else if c = '!' then fmtRun rest (.conv litText nameAcc.reverse)
      else if c = '\x7b' then .error .formatError
      else if c = '[' then fmtRun rest (.brack litText (c :: nameAcc))
      else fmtRun rest (.field litText (c :: nameAcc))
  | c :: rest, .brack litText nameAcc =>
      if c = ']' then fmtRun rest (.field litText (c :: nameAcc))
      else fmtRun rest (.brack litText (c :: nameAcc))
  | c :: rest, .conv litText name => fmtRun rest (.conv2 litText name c)
  | c :: rest, .conv2 litText name cv =>
      if c = '\x7d' then
        match fmtRun rest (.lit []) with
        | .ok ts => .ok (⟨litText, some name, some [], some cv⟩ :: ts)
        | .error e => .error e
      else if c = ':' then fmtRun rest (.spec litText name (some cv) 1 [])
      else .error .formatError
  | c :: rest, .spec litText name cv depth acc =>
      if c = '\x7b' then fmtRun rest (.spec litText name cv (depth + 1) (c :: acc))
      else if c = '\x7d' then
        if depth = 1 then
          match fmtRun rest (.lit []) with
          | .ok ts => .ok (⟨litText, some name, some acc.reverse, cv⟩ :: ts)
          | .error e => .error e
        else fmtRun rest (.spec litText name cv (depth - 1) (c :: acc))
      else fmtRun rest (.spec litText name cv depth (c :: acc))

/-- Model of `list(_FORMATTER.parse(component))` (router.py line 177). -/
def formatterParse (s : List Char) : Except PyErr (List FTuple) :=
  fmtRun s (.lit [])

/-- Model of Python's `str.split('/')` on a single-character separator:
splitting the empty string yields one empty component. -/
def splitSlash : List Char → List (List Char)
  | [] => [[]]
  | c :: rest =>
      if c = '/' then [] :: splitSlash rest
      else
        match splitSlash rest with
        | [] => [[c]]
        | comp :: comps => (c :: comp) :: comps

/-- Leading-component normalization of `_Route.make` (router.py lines 169-170):
drop the first component when it is the empty string. -/
def stripHead : List (List Char) → List (List Char)
  | [] => []
  | comp :: rest => if comp = [] then rest else comp :: rest

/-- Components of a template after splitting on slashes and dropping a leading
empty component, exactly as `_Route.make` computes them. -/
def strippedComponents (s : List Char) : List (List Char) :=
  stripHead (splitSlash s)

/-- Route segment: a plain string or a `_CaptureSegment` with its name. -/
inductive Segment where
  | str (text : List Char)
  | capture (name : List Char)
deriving DecidableEq, Repr

/-- Whether a segment is a `_CaptureSegment` instance. -/
def Segment.isCapture : Segment → Bool
  | .str _ => false
  | .capture _ => true

/-- Conversion from a Lean string literal to the character-list model. -/
def chars (s : String) : List Char := s.data

variable {H : Type}

/-- Route object as laid out by `_Route.__slots__` and its subclasses.
`hashVal` models the precomputed `_hash` (the hash of the segment tuple,
modelled injectively by the tuple itself).  `segmentsAttr`, `captureMapAttr`
and `handlerAttr` model the `segments`, `capture_map` and `handler` slots as
optional because a `__slots__` attribute read fails until assigned.
`isDynamic` records the concrete class (`_DynamicRoute` vs `_StaticRoute`). -/
structure RouteObj (H : Type) where
  hashVal : List Segment
  segmentsAttr : Option (List Segment)
  isDynamic : Bool
  captureMapAttr : Option (List (Nat × List Char))
  handlerAttr : Option H
deriving DecidableEq, Repr

/-- Attribute read of `route.segments`.  `_Route.__init__` (lines 126-129)
assigns only `self._hash`, never `self.segments`, so the read raises
`AttributeError` on every object the source constructs. -/
def getSegmentsAttr (o : RouteObj H) : Except PyErr (List Segment) :=
  match o.segmentsAttr with
  | some s => .ok s
  | none => .error .attributeError

/-- Attribute read of `route.handler`. -/
def getHandlerAttr (o : RouteObj H) : Except PyErr H :=
  match o.handlerAttr with
  | some h => .ok h
  | none => .error .attributeError

/-- Model of `_StaticRoute(segments)`: `_Route.__init__` computes `_hash`
from the segment list and assigns nothing else. -/
def StaticRoute.new (segments : List Segment) : RouteObj H :=
  ⟨segments, none, false, none, none⟩

/-- Model of `_DynamicRoute(segments)`: after `_Route.__init__` sets `_hash`,
`_DynamicRoute.__init__` (lines 223-231) iterates
`for index, segment in self.segments`.  The `segments` slot was never
assigned, so the attribute read raises `AttributeError`; even if it had been,
the missing `enumerate` would make the two-name unpacking fail on each
segment. -/
def DynamicRoute.new (segments : List Segment) : Except PyErr (RouteObj H) :=
  match getSegmentsAttr (⟨segments, none, true, none, none⟩ : RouteObj H) with
  | .error e => .error e
  | .ok _ => .error .typeError

/-- Python truthiness of the format-spec slot (a string or `None`). -/
def fmtTruthy : Option (List Char) → Bool
  | none => false
  | some l => !l.isEmpty

/-- Message of the raise at router.py lines 179-181. -/
def msgMultipleCaptures : String :=
  "Annoliate routes cannot have multiple captures per segment!"

/-- Message of the raise at router.py lines 192-193. -/
def msgNoSpec : String :=
  "Annoliate routes support no spec nor conversion!"

/-- Message of the raise at router.py lines 195-196. -/
def msgMustBeNamed : String :=
  "Annoliate route capture segments must be named!"

/-- Message of the raise at router.py lines 200-202. -/
def msgSingleCapture : String :=
  "Annoliate routes can only have a single capture per path segment!"

/-- Per-component body of the loop in `_Route.make` (lines 175-208): run the
formatter, enforce `len > 1`, unpack the single tuple, run the three value
checks in source order, and yield the resulting segment. -/
def processComponent (comp : List Char) : Except PyErr Segment :=
  match formatterParse comp with
  | .error e => .error e
  | .ok ts =>
      if ts.length > 1 then .error (.invalidTemplate msgMultipleCaptures)
      else
        match ts with
        | [] => .error .unpackError
        | t :: _ =>
            if fmtTruthy t.formatSpec || t.conversion.isSome then
              .error (.invalidTemplate msgNoSpec)
            else if t.fieldName = some [] then
              .error (.invalidTemplate msgMustBeNamed)
            else if t.literal.isEmpty then
              .error (.invalidTemplate msgSingleCapture)
            else
              match t.fieldName with
              | none => .ok (.str t.literal)
              | some n => .ok (.capture n)

/-- Left-to-right processing of all components, accumulating the segment list
and the `is_dynamic` flag (set when any capture segment is appended). -/
def makeSegments : List (List Char) → Except PyErr (List Segment × Bool)
  | [] => .ok ([], false)
  | comp :: rest =>
      match processComponent comp with
      | .error e => .error e
      | .ok seg =>
          match makeSegments rest with
          | .error e => .error e
          | .ok (segs, dyn) => .ok (seg :: segs, dyn || seg.isCapture)

/-- Model of `_Route.make` (router.py lines 153-213). -/
def Route.make (path : List Char) : Except PyErr (RouteObj H) :=
  match makeSegments (strippedComponents path) with
  | .error e => .error e
  | .ok (segs, isDyn) =>
      if isDyn then DynamicRoute.new segs else .ok (StaticRoute.new segs)

/-- Model of `_StaticRoute.parse` (router.py lines 253-265): indexing the
empty string raises `IndexError`; otherwise split after an optional leading
slash, with every component kept as a plain string. -/
def StaticRoute.parse (path : List Char) : Except PyErr (RouteObj H) :=
  match path with
  | [] => .error .indexError
  | c :: rest =>
      if c = '/' then .ok (StaticRoute.new ((splitSlash rest).map .str))
      else .ok (StaticRoute.new ((splitSlash (c :: rest)).map .str))

/-- Model of `_Route.__eq__` (lines 135-143): compare `self.segments` with
`other.segments`, returning `NotImplemented` (here `none`) when the attribute
read raises.  Reading either unset slot is caught by the except clause. -/
def routeEqMethod (a b : RouteObj H) : Option Bool :=
  match a.segmentsAttr, b.segmentsAttr with
  | some s, some t => some (s = t)
  | _, _ => none

/-- Python `a == b` between route objects: try `a.__eq__ b`, then the
reflected `b.__eq__ a`; when both return `NotImplemented`, CPython falls back
to identity, which is `False` here because the source only ever compares a
freshly constructed route against previously stored ones. -/
def pyRouteEqBool (a b : RouteObj H) : Bool :=
  match routeEqMethod a b with
  | some v => v
  | none =>
      match routeEqMethod b a with
      | some v => v
      | none => false

/-- Dict key probe: CPython compares hashes first and only then runs the
equality protocol. -/
def pyDictKeyMatch (stored probe : RouteObj H) : Bool :=
  if stored.hashVal = probe.hashVal then pyRouteEqBool stored probe else false

/-- Lookup in the `_static_lookup` dict, keyed by route objects. -/
def dictFind : List (RouteObj H × H) → RouteObj H → Option H
  | [], _ => none
  | (k, v) :: rest, probe =>
      if pyDictKeyMatch k probe then some v else dictFind rest probe

/-- Membership test `route in self._static_lookup`. -/
def dictContains (d : List (RouteObj H × H)) (probe : RouteObj H) : Bool :=
  (dictFind d probe).isSome

/-- Model of `self._static_lookup[route] = handler`: replace the value of a
matching key (keeping the stored key object), else append a new entry. -/
def dictInsert : List (RouteObj H × H) → RouteObj H → H → List (RouteObj H × H)
  | [], probe, v => [(probe, v)]
  | (k, w) :: rest, probe, v =>
      if pyDictKeyMatch k probe then (k, v) :: rest
      else (k, w) :: dictInsert rest probe v

/-- Node of the `_dynamic_lookup` nested-dict trie.  String keys become the
association list `children`; the `CAPTURE_SEGMENT` sentinel key becomes
`captureChild`; the `TERMINATOR` sentinel key becomes `terminator`. -/
inductive TrieNode (H : Type) where
  | mk (children : List (List Char × TrieNode H))
      (captureChild : Option (TrieNode H))
      (terminator : Option (RouteObj H))

/-- String-keyed children of a trie node. -/
def TrieNode.children : TrieNode H → List (List Char × TrieNode H)
  | .mk c _ _ => c

/-- Child stored under the `CAPTURE_SEGMENT` sentinel key. -/
def TrieNode.captureChild : TrieNode H → Option (TrieNode H)
  | .mk _ cap _ => cap

/-- Route stored under the `TERMINATOR` sentinel key. -/
def TrieNode.terminator : TrieNode H → Option (RouteObj H)
  | .mk _ _ t => t

/-- Empty dict node. -/
def emptyTrie : TrieNode H := .mk [] none none

/-- Lookup of a string key among a node's children. -/
def lookupChild : List (List Char × TrieNode H) → List Char → Option (TrieNode H)
  | [], _ => none
  | (k, v) :: rest, key => if k = key then some v else lookupChild rest key

/-- Store a child under a string key, replacing an existing binding. -/
def setChild : List (List Char × TrieNode H) → List Char → TrieNode H →
    List (List Char × TrieNode H)
  | [], key, v => [(key, v)]
  | (k, w) :: rest, key, v =>
      if k = key then (k, v) :: rest else (k, w) :: setChild rest key v

/-- Router state: the static dict and the dynamic trie. -/
structure Router (H : Type) where
  staticLookup : List (RouteObj H × H)
  dynamicLookup : TrieNode H

/-- Freshly constructed router with both lookups empty. -/
def emptyRouter (H : Type) : Router H := ⟨[], emptyTrie⟩

/-- Trie-extending walk of the dynamic branch of `Router.register`
(lines 87-112): descend one segment at a time, creating empty child dicts on
demand, with every capture segment collapsed onto the `CAPTURE_SEGMENT`
sentinel.  At the end of the walk the source checks the terminator for a
duplicate and raises; the assignment `current_lookup[TERMINATOR] = route` on
line 112 is indented under that raise, after it, and therefore never
executes, so no terminator is ever stored. -/
def registerWalk (ao : Bool) (route : RouteObj H) :
    List Segment → TrieNode H → TrieNode H × Option PyErr
  | [], node =>
      if node.terminator.isSome && !ao then (node, some .duplicateRoute)
      else (node, none)
  | .capture _ :: rest, node =>
      let child := (node.captureChild).getD emptyTrie
      let result := registerWalk ao route rest child
      (.mk node.children (some result.1) node.terminator, result.2)
  | .str s :: rest, node =>
      let child := (lookupChild node.children s).getD emptyTrie
      let result := registerWalk ao route rest child
      (.mk (setChild node.children s result.1) node.captureChild node.terminator,
        result.2)

/-- Post-parse body of `Router.register` (lines 76-112), branching on the
concrete class of the parsed route.  Returns the router state as left by the
call together with the raised error, if any. -/
def Router.registerRoute (r : Router H) (route : RouteObj H) (handler : H)
    (allowOverwrite : Bool) : Router H × Option PyErr :=
  if route.isDynamic = false then
    if dictContains r.staticLookup route && !allowOverwrite then
      (r, some .duplicateRoute)
    else
      (⟨dictInsert r.staticLookup route handler, r.dynamicLookup⟩, none)
  else
    let route2 : RouteObj H :=
      ⟨route.hashVal, route.segmentsAttr, route.isDynamic, route.captureMapAttr,
        some handler⟩
    match getSegmentsAttr route2 with
    | .error e => (r, some e)
    | .ok segs =>
        let result := registerWalk allowOverwrite route2 segs r.dynamicLookup
        (⟨r.staticLookup, result.1⟩, result.2)

/-- Model of `Router.register` (lines 73-112). -/
def Router.register (r : Router H) (routeStr : List Char) (handler : H)
    (allowOverwrite : Bool) : Router H × Option PyErr :=
  match Route.make routeStr with
  | .error e => (r, some e)
  | .ok route => r.registerRoute route handler allowOverwrite

/-- Trie walk of `Router._dispatch_dynamic` (lines 47-71): for each incoming
segment prefer the exact string child, fall back to the capture child, else
raise `MissingRoute`; at the end the current node must carry a terminator.  A
capture segment in the incoming route (impossible for `_StaticRoute.parse`
output) matches no string key and behaves like the fallback case. -/
def walkTrie : List Segment → TrieNode H → Except PyErr (RouteObj H)
  | [], node =>
      match node.terminator with
      | some route => .ok route
      | none => .error .missingRoute
  | .str s :: rest, node =>
      match lookupChild node.children s with
      | some child => walkTrie rest child
      | none =>
          match node.captureChild with
          | some child => walkTrie rest child
          | none => .error .missingRoute
  | .capture _ :: rest, node =>
      match node.captureChild with
      | some child => walkTrie rest child
      | none => .error .missingRoute

/-- Model of `Router._dispatch_dynamic` (lines 40-71): the loop head reads
`incoming_route.segments` before any trie step. -/
def Router.dispatchDynamic (r : Router H) (incoming : RouteObj H) :
    Except PyErr (RouteObj H) :=
  match getSegmentsAttr incoming with
  | .error e => .error e
  | .ok segs => walkTrie segs r.dynamicLookup

/-- Model of `Router.dispatch` (lines 34-38): the static-dict membership test
and the subsequent subscript are folded into one lookup over the same key
comparison; on a miss, fall through to the dynamic walk and read `.handler`
off the returned route object. -/
def Router.dispatch (r : Router H) (incoming : RouteObj H) : Except PyErr H :=
  match dictFind r.staticLookup incoming with
  | some h => .ok h
  | none =>
      match r.dispatchDynamic incoming with
      | .ok route => getHandlerAttr route
      | .error e => .error e

/-! General lemmas about the embedded definitions. -/

/-- Constructing a `_DynamicRoute` always raises: `_DynamicRoute.__init__`
reads the never-assigned `segments` slot. -/
theorem dynamicRoute_new_eq_error (segs : List Segment) :
    (DynamicRoute.new segs : Except PyErr (RouteObj H)) = .error .attributeError := rfl

/-- A successful `_Route.make` always returns a `_StaticRoute`, because the
dynamic constructor raises before returning. -/
theorem route_make_not_dynamic {s : List Char} {o : RouteObj H}
    (hm : Route.make s = .ok o) : o.isDynamic = false := by
  unfold Route.make at hm
  rcases hseg : makeSegments (strippedComponents s) with e | ⟨segs, dyn⟩ <;>
    rw [hseg] at hm
  · cases hm
  · cases dyn
    · simp only [Bool.false_eq_true, if_false] at hm
      cases hm
      rfl
    · exact Except.noConfusion hm

/-- Splitting never yields an empty component list. -/
theorem splitSlash_ne_nil (s : List Char) : splitSlash s ≠ [] := by
  induction s with
  | nil => simp [splitSlash]
  | cons c rest ih =>
      by_cases hc : c = '/'
      · simp [splitSlash, hc]
      · rcases hsp : splitSlash rest with _ | ⟨comp, comps⟩
        · exact absurd hsp ih
        · simp [splitSlash, hc, hsp]

/-- Every character of a split component occurs in the split string. -/
theorem mem_splitSlash_mem {s comp : List Char} (hcm : comp ∈ splitSlash s) :
    ∀ c ∈ comp, c ∈ s := by
  induction s generalizing comp with
  | nil =>
      intro c hc
      simp only [splitSlash, List.mem_singleton] at hcm
      subst hcm
      cases hc
  | cons a rest ih =>
      intro c hc
      by_cases ha : a = '/'
      · rw [show splitSlash (a :: rest) = [] :: splitSlash rest by
          simp [splitSlash, ha]] at hcm
        rcases List.mem_cons.mp hcm with h1 | h2
        · subst h1; cases hc
        · exact List.mem_cons_of_mem a (ih h2 c hc)
      · rcases hsp : splitSlash rest with _ | ⟨q, qs⟩
        · exact absurd hsp (splitSlash_ne_nil rest)
        · rw [show splitSlash (a :: rest) = (a :: q) :: qs by
            simp [splitSlash, ha, hsp]] at hcm
          rcases List.mem_cons.mp hcm with h1 | h2
          · subst h1
            rcases List.mem_cons.mp hc with h3 | h4
            · subst h3; exact List.mem_cons_self _ _
            · have hq : q ∈ splitSlash rest := by
                rw [hsp]; exact List.mem_cons_self q qs
              exact List.mem_cons_of_mem a (ih hq c h4)
          · have hcomp : comp ∈ splitSlash rest := by
              rw [hsp]; exact List.mem_cons_of_mem q h2
            exact List.mem_cons_of_mem a (ih hcomp c hc)

/-- Stripping the leading empty component yields a sublist memberwise. -/
theorem mem_stripHead {l : List (List Char)} {comp : List Char}
    (hm : comp ∈ stripHead l) : comp ∈ l := by
  cases l with
  | nil => cases hm
  | cons x rest =>
      by_cases hx : x = []
      · subst hx
        exact List.mem_cons_of_mem [] hm
      · rw [show stripHead (x :: rest) = x :: rest by simp [stripHead, hx]] at hm
        exact hm

/-- The formatter yields a single all-literal tuple on brace-free text. -/
theorem fmtRun_literal {comp : List Char} (acc : List Char)
    (hbf : ∀ c ∈ comp, c ≠ '\x7b' ∧ c ≠ '\x7d')
    (hne : acc = [] → comp ≠ []) :
    fmtRun comp (.lit acc) = .ok [⟨acc.reverse ++ comp, none, none, none⟩] := by
  induction comp generalizing acc with
  | nil =>
      cases acc with
      | nil => exact absurd rfl (hne rfl)
      | cons a as => simp [fmtRun]
  | cons c rest ih =>
      have hc := hbf c (List.mem_cons_self c rest)
      have hrest : ∀ x ∈ rest, x ≠ '\x7b' ∧ x ≠ '\x7d' :=
        fun x hx => hbf x (List.mem_cons_of_mem c hx)
      rw [show fmtRun (c :: rest) (.lit acc) = fmtRun rest (.lit (c :: acc)) by
        simp [fmtRun, hc.1, hc.2]]
      rw [ih (c :: acc) hrest (by simp)]
      simp

/-- On a nonempty brace-free component, the `_Route.make` loop body yields the
component itself as a literal segment. -/
theorem processComponent_literal {comp : List Char}
    (hbf : ∀ c ∈ comp, c ≠ '\x7b' ∧ c ≠ '\x7d') (hne : comp ≠ []) :
    processComponent comp = .ok (.str comp) := by
  unfold processComponent formatterParse
  rw [fmtRun_literal [] hbf (fun _ => hne)]
  cases comp with
  | nil => exact absurd rfl hne
  | cons c cs => simp [fmtTruthy]

/-- On a list of nonempty brace-free components, the loop of `_Route.make`
yields the literal segments with the dynamic flag unset. -/
theorem makeSegments_literal (comps : List (List Char))
    (hall : ∀ comp ∈ comps, (∀ c ∈ comp, c ≠ '\x7b' ∧ c ≠ '\x7d') ∧ comp ≠ []) :
    makeSegments comps = .ok (comps.map .str, false) := by
  induction comps with
  | nil => rfl
  | cons comp rest ih =>
      have h1 := hall comp (List.mem_cons_self comp rest)
      have h2 : ∀ x ∈ rest, (∀ c ∈ x, c ≠ '\x7b' ∧ c ≠ '\x7d') ∧ x ≠ [] :=
        fun x hx => hall x (List.mem_cons_of_mem comp hx)
      simp [makeSegments, processComponent_literal h1.1 h1.2, ih h2,
        Segment.isCapture]

/-- On a brace-free template whose normalized components are all nonempty,
`_Route.make` returns the static route over the literal components. -/
theorem route_make_clean {H : Type} (s : List Char)
    (hbf : ∀ c ∈ s, c ≠ '\x7b' ∧ c ≠ '\x7d')
    (hcomps : ∀ comp ∈ strippedComponents s, comp ≠ []) :
    Route.make s =
      (.ok (StaticRoute.new ((strippedComponents s).map .str)) :
        Except PyErr (RouteObj H)) := by
  have hall : ∀ comp ∈ strippedComponents s,
      (∀ c ∈ comp, c ≠ '\x7b' ∧ c ≠ '\x7d') ∧ comp ≠ [] := fun comp hcm =>
    ⟨fun c hc => hbf c (mem_splitSlash_mem (mem_stripHead hcm) c hc),
      hcomps comp hcm⟩
  unfold Route.make
  rw [makeSegments_literal (strippedComponents s) hall]
  rfl

/-- On any nonempty path, `_StaticRoute.parse` returns the static route over
the same normalized components that `_Route.make` computes. -/
theorem staticRoute_parse_eq {H : Type} (c : Char) (rest : List Char) :
    StaticRoute.parse (c :: rest) =
      (.ok (StaticRoute.new ((strippedComponents (c :: rest)).map .str)) :
        Except PyErr (RouteObj H)) := by
  by_cases hc : c = '/'
  · rw [show strippedComponents (c :: rest) = splitSlash rest by
      simp [strippedComponents, splitSlash, hc, stripHead]]
    simp [StaticRoute.parse, hc]
  · rcases hsp : splitSlash rest with _ | ⟨q, qs⟩
    · exact absurd hsp (splitSlash_ne_nil rest)
    · have hsp2 : splitSlash (c :: rest) = (c :: q) :: qs := by
        simp [splitSlash, hc, hsp]
      rw [show strippedComponents (c :: rest) = (c :: q) :: qs by
        simp [strippedComponents, hsp2, stripHead]]
      simp [StaticRoute.parse, hc, hsp2]

/-- Processing any list of components containing the empty component fails:
the formatter yields no tuple for the empty string, so either the empty
component's single-tuple unpacking fails or an earlier component has already
raised. -/
theorem makeSegments_error_of_mem_nil {comps : List (List Char)}
    (he : [] ∈ comps) : ∃ e, makeSegments comps = .error e := by
  induction comps with
  | nil => cases he
  | cons comp rest ih =>
      rcases List.mem_cons.mp he with hc | hr
      · exact ⟨.unpackError, by rw [← hc]; rfl⟩
      · rcases hpc : processComponent comp with e | seg
        · exact ⟨e, by simp [makeSegments, hpc]⟩
        · rcases ih hr with ⟨e, hrest⟩
          exact ⟨e, by simp [makeSegments, hpc, hrest]⟩

/-! Claim theorems. -/

/-- C1: the claim says registering a dynamic template stores the DynamicRoute
in the terminator slot of the trie node reached by its segments, and that
dispatch then returns the handler plus captures.  The code instead rejects
every well-formed dynamic template at parse time (the check at line 199
raises for any component whose literal prefix is empty, i.e. for every pure
capture segment), and even the trie-walk code never stores a terminator: at
a capture-only walk the final node's terminator stays `none` because line 112
sits unreachably after the duplicate raise. -/
theorem c1_dynamic_registration_broken :
    Router.register (emptyRouter Nat) (chars "/user/\x7bid\x7d") 7 false
      = (emptyRouter Nat, some (.invalidTemplate msgSingleCapture)) ∧
    registerWalk false (StaticRoute.new []) [Segment.capture (chars "id")]
        (emptyTrie : TrieNode Nat)
      = (.mk [] (some (.mk [] none none)) none, none) :=
  ⟨rfl, rfl⟩

/-- C2: the claim says parse succeeds on templates of well-formed literal and
capture components, returning a DynamicRoute with an index-to-name capture
map when a capture occurs.  The code fails on every such dynamic template:
a pure capture component trips the empty-literal check, and a component
passing the checks still crashes in `_DynamicRoute.__init__`, whose
capture-map loop reads the never-assigned `segments` slot. -/
theorem c2_parse_cannot_build_dynamic_route :
    (Route.make (chars "/post/\x7bslug\x7d") : Except PyErr (RouteObj Nat))
      = .error (.invalidTemplate msgSingleCapture) ∧
    (Route.make (chars "/p\x7bq\x7d") : Except PyErr (RouteObj Nat))
      = .error .attributeError :=
  ⟨rfl, rfl⟩

/-- Router holding one registration of the static template `/foo`. -/
def c3FirstRouter : Router Nat :=
  (Router.register (emptyRouter Nat) (chars "/foo") 1 false).1

/-- C3: the claim says re-registering the same template without overwrite
fails with DuplicateRoute.  In the code the duplicate test never fires:
`_Route.__eq__` raises `AttributeError` on the unset `segments` slot, is
caught into `NotImplemented`, and the dict membership test falls back to
identity, so the second registration silently adds a second entry. -/
theorem c3_duplicate_static_registration_not_rejected :
    (Router.register c3FirstRouter (chars "/foo") 2 false).2 = none ∧
    (Router.register c3FirstRouter (chars "/foo") 2 false).1.staticLookup.length
      = 2 :=
  ⟨rfl, rfl⟩

/-- Router holding one registration of the static template `/foo` under
handler 5. -/
def c4Router : Router Nat :=
  (Router.register (emptyRouter Nat) (chars "/foo") 5 false).1

/-- C4: the claim says dispatching the exact path of a registered static
template returns its handler from the static table.  In the code the static
lookup always misses (same broken equality as C3), dispatch falls through to
`_dispatch_dynamic`, and that immediately raises `AttributeError` reading
`incoming_route.segments`. -/
theorem c4_static_dispatch_raises_attribute_error :
    (StaticRoute.parse (chars "/foo") : Except PyErr (RouteObj Nat))
      = .ok (StaticRoute.new [Segment.str (chars "foo")]) ∧
    Router.dispatch c4Router (StaticRoute.new [Segment.str (chars "foo")])
      = .error .attributeError :=
  ⟨rfl, rfl⟩

/-- C5: the claim says parse fails with InvalidRouteTemplate exactly on
components with multiple captures, annotations, empty names, or mixed
literal/capture text.  The code inverts two cases: a lone well-formed
capture component is rejected (its literal prefix is empty, tripping the
line-199 check), while a mixed literal-then-capture component passes all the
checks and then fails with `AttributeError` rather than the template error. -/
theorem c5_template_validation_misfires :
    (Route.make (chars "/\x7bid\x7d") : Except PyErr (RouteObj Nat))
      = .error (.invalidTemplate msgSingleCapture) ∧
    (Route.make (chars "/ab\x7bcd\x7d") : Except PyErr (RouteObj Nat))
      = .error .attributeError :=
  ⟨rfl, rfl⟩

/-- Dynamic route object used to populate the C6 example tries. -/
def c6Route : RouteObj Nat :=
  ⟨[Segment.capture (chars "x"), Segment.str (chars "b")], none, true, none,
    some 9⟩

/-- Trie node whose terminator holds `c6Route`. -/
def c6Term : TrieNode Nat := .mk [] none (some c6Route)

/-- Wildcard subtree continuing with literal `b` to a terminator. -/
def c6CaptureSub : TrieNode Nat := .mk [(chars "b", c6Term)] none none

/-- Root with a dead-end literal child `a` next to a viable wildcard child. -/
def c6Greedy : TrieNode Nat := .mk [(chars "a", .mk [] none none)] (some c6CaptureSub) none

/-- The same root without the dead-end literal child. -/
def c6NoLiteral : TrieNode Nat := .mk [] (some c6CaptureSub) none

/-- C6: the walk loop is indeed greedy with literal preference and no
backtracking (first two conjuncts: with a dead-end literal child present the
walk misses even though the wildcard branch would have matched), but the
claim's statement about dispatch is wrong on the code: `_dispatch_dynamic`
raises `AttributeError` reading `incoming_route.segments` before any trie
step, so dispatch never reaches the walk, let alone `MissingRoute`. -/
theorem c6_walk_greedy_but_dispatch_crashes :
    walkTrie [Segment.str (chars "a"), Segment.str (chars "b")] c6Greedy
      = .error .missingRoute ∧
    walkTrie [Segment.str (chars "a"), Segment.str (chars "b")] c6NoLiteral
      = .ok c6Route ∧
    Router.dispatch (emptyRouter Nat)
        (StaticRoute.new [Segment.str (chars "zzz")])
      = .error .attributeError :=
  ⟨rfl, rfl, rfl⟩

/-- C7: register is atomic on failure.  Every failing path of `register`
raises before mutating either structure: all `_Route.make` errors precede
the branch, the static duplicate raise precedes the insert, and the dynamic
branch (whose walk does create nodes before its duplicate raise) is
unreachable because `_Route.make` can never return a `_DynamicRoute`. -/
theorem c7_register_atomic_on_failure {H : Type} (r : Router H) (s : List Char)
    (h : H) (ao : Bool)
    (hfail : (Router.register r s h ao).2.isSome = true) :
    (Router.register r s h ao).1 = r := by
  rcases hm : Route.make s with e | route
  · unfold Router.register
    rw [hm]
  · have hd : route.isDynamic = false := route_make_not_dynamic hm
    have hreg : Router.register r s h ao = r.registerRoute route h ao := by
      unfold Router.register
      rw [hm]
    rw [hreg] at hfail ⊢
    cases hd2 : (dictContains r.staticLookup route && !ao)
    · exfalso
      rw [show (r.registerRoute route h ao).2 = none by
        simp [Router.registerRoute, hd, hd2]] at hfail
      simp at hfail
    · simp [Router.registerRoute, hd, hd2]

/-- Witness for C7 at the template consisting of a double slash. -/
theorem c7_register_atomic_on_failure_witness :
    (Router.register (emptyRouter Nat) (chars "//") 0 false).2.isSome = true ∧
    (Router.register (emptyRouter Nat) (chars "//") 0 false).1
      = emptyRouter Nat :=
  ⟨rfl, c7_register_atomic_on_failure (emptyRouter Nat) (chars "//") 0 false rfl⟩

/-- C9: registration of a static route touches only the static table and
registration of a dynamic route touches only the trie, for the post-parse
body of `register` over any route object; dispatch performs no mutation at
all (its embedding is a pure function because the source assigns nothing). -/
theorem c9_register_frame {H : Type} (r : Router H) (route : RouteObj H)
    (h : H) (ao : Bool) :
    (route.isDynamic = false →
      (r.registerRoute route h ao).1.dynamicLookup = r.dynamicLookup) ∧
    (route.isDynamic = true →
      (r.registerRoute route h ao).1.staticLookup = r.staticLookup) := by
  cases hd : route.isDynamic
  · refine ⟨fun _ => ?_, fun hcontra => by cases hcontra⟩
    cases hd2 : (dictContains r.staticLookup route && !ao)
    · simp [Router.registerRoute, hd, hd2]
    · simp [Router.registerRoute, hd, hd2]
  · refine ⟨fun hcontra => (by cases hcontra), fun _ => ?_⟩
    cases hsa : route.segmentsAttr
    · simp [Router.registerRoute, hd, getSegmentsAttr, hsa]
    · simp [Router.registerRoute, hd, getSegmentsAttr, hsa]

/-- Witness for C9 at a concrete static route object. -/
theorem c9_register_frame_witness :
    (Router.registerRoute (emptyRouter Nat)
        (StaticRoute.new [Segment.str (chars "w")]) 0 false).1.dynamicLookup
      = (emptyRouter Nat).dynamicLookup :=
  (c9_register_frame (emptyRouter Nat)
    (StaticRoute.new [Segment.str (chars "w")]) 0 false).1 rfl

/-- C10: any template whose normalized component list contains the empty
component makes `register` fail and leave the router unchanged, because the
formatter yields no tuple for the empty component so the single-tuple
unpacking raises (or an earlier component has already raised). -/
theorem c10_empty_component_always_rejected {H : Type} (r : Router H)
    (s : List Char) (h : H) (ao : Bool) (he : [] ∈ strippedComponents s) :
    ∃ e, Router.register r s h ao = (r, some e) := by
  rcases makeSegments_error_of_mem_nil he with ⟨e, hm⟩
  refine ⟨e, ?_⟩
  unfold Router.register Route.make
  rw [hm]

/-- Witness for C10 at the root template. -/
theorem c10_empty_component_always_rejected_witness :
    ([] ∈ strippedComponents (chars "/")) ∧
    ∃ e, Router.register (emptyRouter Nat) (chars "/") 0 false
      = (emptyRouter Nat, some e) :=
  ⟨by decide,
    c10_empty_component_always_rejected (emptyRouter Nat) (chars "/") 0 false
      (by decide)⟩

/-- C8 counterexample: at the root path, which contains no placeholder
marker, the two parsers disagree: `_Route.make` raises on the empty
component while `_StaticRoute.parse` returns a one-segment route. -/
theorem c8_parsers_disagree_at_root :
    (Route.make (chars "/") : Except PyErr (RouteObj Nat))
      = .error .unpackError ∧
    (StaticRoute.parse (chars "/") : Except PyErr (RouteObj Nat))
      = .ok (StaticRoute.new [Segment.str []]) :=
  ⟨rfl, rfl⟩

/-- C8 (amended): on every nonempty brace-free path whose normalized
components are all nonempty, `_Route.make` and `_StaticRoute.parse` return
the same `_StaticRoute` value. -/
theorem c8_parsers_agree_on_clean_paths {H : Type} (s : List Char)
    (hne : s ≠ [])
    (hbf : ∀ c ∈ s, c ≠ '\x7b' ∧ c ≠ '\x7d')
    (hcomps : ∀ comp ∈ strippedComponents s, comp ≠ []) :
    ∃ o : RouteObj H, Route.make s = .ok o ∧ StaticRoute.parse s = .ok o := by
  refine ⟨StaticRoute.new ((strippedComponents s).map .str),
    route_make_clean s hbf hcomps, ?_⟩
  cases s with
  | nil => exact absurd rfl hne
  | cons c rest => exact staticRoute_parse_eq c rest

/-- Witness for the amended C8 at the path `/foo/bar`. -/
theorem c8_parsers_agree_on_clean_paths_witness :
    (chars "/foo/bar" ≠ []) ∧
    (∀ c ∈ chars "/foo/bar", c ≠ '\x7b' ∧ c ≠ '\x7d') ∧
    (∀ comp ∈ strippedComponents (chars "/foo/bar"), comp ≠ []) ∧
    ∃ o : RouteObj Nat, Route.make (chars "/foo/bar") = .ok o ∧
      StaticRoute.parse (chars "/foo/bar") = .ok o :=
  ⟨by decide, by decide, by decide,
    c8_parsers_agree_on_clean_paths (chars "/foo/bar") (by decide) (by decide)
      (by decide)⟩

end Annoliate
